import Mathlib

/-!
Verification of the tiled ground mesh builder from `src/main.rs`
(`setup_plane` and `plane_positions_and_uvs`).

The geometry code uses `f32`, but every quantity it manipulates is a small
dyadic rational (multiples of 2.5 combined by +, -, /2, /10), all of which
are exactly representable and exactly computed in `f32`.  We therefore embed
the arithmetic in `ℚ`, where all the stated equalities are exact.
-/

/-- A 3D vertex position, mirroring `bevy::Vec3` / `[f32; 3]`. -/
structure Vec3 where
  x : ℚ
  y : ℚ
  z : ℚ
  deriving DecidableEq, Repr

/-- A 2D texture coordinate, mirroring `[f32; 2]`. -/
structure UV2 where
  u : ℚ
  v : ℚ
  deriving DecidableEq, Repr

/-- `uv_calculate` closure from `plane_positions_and_uvs` (line 153):
`|c| (c + min_x.abs()) / map_side_len`. -/
def uv_calculate (map_side_len min_x c : ℚ) : ℚ :=
  (c + |min_x|) / map_side_len

/-- `get_uv` closure from `plane_positions_and_uvs` (line 154):
`|x, z| [uv_calculate(z), uv_calculate(x)]` — note the axis swap. -/
def get_uv (map_side_len min_x x z : ℚ) : UV2 :=
  ⟨uv_calculate map_side_len min_x z, uv_calculate map_side_len min_x x⟩

/-- `plane_positions_and_uvs` (lines 145–204): pushes a, b, c, then c, d, a,
each position paired with `get_uv` of its x/z coordinates. -/
def plane_positions_and_uvs (a b c d : Vec3) (map_side_len min_x : ℚ) :
    List Vec3 × List UV2 :=
  ([a, b, c, c, d, a],
   [get_uv map_side_len min_x a.x a.z,
    get_uv map_side_len min_x b.x b.z,
    get_uv map_side_len min_x c.x c.z,
    get_uv map_side_len min_x c.x c.z,
    get_uv map_side_len min_x d.x d.z,
    get_uv map_side_len min_x a.x a.z])

/-- The four corner variables `a`, `b`, `c`, `d` of one tile block in
`setup_plane`. -/
structure Corners where
  a : Vec3
  b : Vec3
  c : Vec3
  d : Vec3
  deriving DecidableEq, Repr

/-- Base corners of tile 0 (`setup_plane` lines 91–94), with
`s = tile_side_step`. -/
def base_corners (s : ℚ) : Corners :=
  { a := ⟨s, s, -s⟩
    b := ⟨-s, 0, -s⟩
    c := ⟨-s, 0, s⟩
    d := ⟨s, 0, s⟩ }

/-- Corner update for tile 1 (`setup_plane` lines 101–104): shift +x by
`2*s`; `a.y -= s`, `b.y += s`, `c`/`d` keep their y. -/
def tile1_update (s : ℚ) (q : Corners) : Corners :=
  { a := ⟨q.a.x + s * 2, q.a.y - s, q.a.z⟩
    b := ⟨q.b.x + s * 2, q.b.y + s, q.b.z⟩
    c := ⟨q.c.x + s * 2, q.c.y, q.c.z⟩
    d := ⟨q.d.x + s * 2, q.d.y, q.d.z⟩ }

/-- Corner update for tile 2 (`setup_plane` lines 111–114): shift -z by
`2*s`; `a`/`d` keep their y, `b.y -= s`, `c.y += s`. -/
def tile2_update (s : ℚ) (q : Corners) : Corners :=
  { a := ⟨q.a.x, q.a.y, q.a.z - s * 2⟩
    b := ⟨q.b.x, q.b.y - s, q.b.z - s * 2⟩
    c := ⟨q.c.x, q.c.y + s, q.c.z - s * 2⟩
    d := ⟨q.d.x, q.d.y, q.d.z - s * 2⟩ }

/-- Corner update for tile 3 (`setup_plane` lines 121–124): shift -x by
`2*s`; `a`/`b` keep their y, `c.y -= s`, `d.y += s`. -/
def tile3_update (s : ℚ) (q : Corners) : Corners :=
  { a := ⟨q.a.x - s * 2, q.a.y, q.a.z⟩
    b := ⟨q.b.x - s * 2, q.b.y, q.b.z⟩
    c := ⟨q.c.x - s * 2, q.c.y - s, q.c.z⟩
    d := ⟨q.d.x - s * 2, q.d.y + s, q.d.z⟩ }

/-- `tile_side_step` (`setup_plane` line 60): `map_side_len / 2.0 / 2.0`. -/
def tile_side_step (map_side_len : ℚ) : ℚ :=
  map_side_len / 2 / 2

/-- The state of the corner variables at the start of tile block `i`
(`i = 0` is the base quad). -/
def tile_vars (map_side_len : ℚ) : Fin 4 → Corners
  | 0 => base_corners (tile_side_step map_side_len)
  | 1 => tile1_update (tile_side_step map_side_len) (tile_vars map_side_len 0)
  | 2 => tile2_update (tile_side_step map_side_len) (tile_vars map_side_len 1)
  | 3 => tile3_update (tile_side_step map_side_len) (tile_vars map_side_len 2)

/-- The four corners as passed to `plane_positions_and_uvs` for tile `i`:
tiles 0 and 2 pass `(a, b, c, d)` (lines 96, 116), tiles 1 and 3 pass
`(b, c, d, a)` (lines 106, 126). -/
def tile_args (map_side_len : ℚ) : Fin 4 → Corners
  | 0 => tile_vars map_side_len 0
  | 1 => let q := tile_vars map_side_len 1; ⟨q.b, q.c, q.d, q.a⟩
  | 2 => tile_vars map_side_len 2
  | 3 => let q := tile_vars map_side_len 3; ⟨q.b, q.c, q.d, q.a⟩

/-- Position/UV buffers emitted for tile `i`. -/
def tile_buffers (map_side_len min_x : ℚ) (i : Fin 4) : List Vec3 × List UV2 :=
  let q := tile_args map_side_len i
  plane_positions_and_uvs q.a q.b q.c q.d map_side_len min_x

/-- `complete_positions` / `complete_uvs` assembled by `setup_plane`
(lines 62–129): the four tiles' buffers concatenated in tile order. -/
def setup_plane_buffers (map_side_len min_x : ℚ) : List Vec3 × List UV2 :=
  ((tile_buffers map_side_len min_x 0).1 ++ (tile_buffers map_side_len min_x 1).1 ++
     (tile_buffers map_side_len min_x 2).1 ++ (tile_buffers map_side_len min_x 3).1,
   (tile_buffers map_side_len min_x 0).2 ++ (tile_buffers map_side_len min_x 1).2 ++
     (tile_buffers map_side_len min_x 2).2 ++ (tile_buffers map_side_len min_x 3).2)

/-- `map_side_len` constant of `setup_plane` (line 58). -/
def the_map_side_len : ℚ := 10

/-- `min_x` constant of `setup_plane` (line 59). -/
def the_min_x : ℚ := -5

/-- Smallest x coordinate among tile `i`'s four corners. -/
def tile_lo_x (map_side_len : ℚ) (i : Fin 4) : ℚ :=
  let q := tile_vars map_side_len i
  min (min q.a.x q.b.x) (min q.c.x q.d.x)

/-- Largest x coordinate among tile `i`'s four corners. -/
def tile_hi_x (map_side_len : ℚ) (i : Fin 4) : ℚ :=
  let q := tile_vars map_side_len i
  max (max q.a.x q.b.x) (max q.c.x q.d.x)

/-- Smallest z coordinate among tile `i`'s four corners. -/
def tile_lo_z (map_side_len : ℚ) (i : Fin 4) : ℚ :=
  let q := tile_vars map_side_len i
  min (min q.a.z q.b.z) (min q.c.z q.d.z)

/-- Largest z coordinate among tile `i`'s four corners. -/
def tile_hi_z (map_side_len : ℚ) (i : Fin 4) : ℚ :=
  let q := tile_vars map_side_len i
  max (max q.a.z q.b.z) (max q.c.z q.d.z)

/-- The x/z projection (footprint) of tile `i`: the axis-aligned rectangle
spanned by its corners' x and z coordinates. -/
def tile_footprint (map_side_len : ℚ) (i : Fin 4) : Set (ℚ × ℚ) :=
  {p | tile_lo_x map_side_len i ≤ p.1 ∧ p.1 ≤ tile_hi_x map_side_len i ∧
       tile_lo_z map_side_len i ≤ p.2 ∧ p.2 ≤ tile_hi_z map_side_len i}

/-- The interior of tile `i`'s footprint (strict inequalities). -/
def tile_interior (map_side_len : ℚ) (i : Fin 4) : Set (ℚ × ℚ) :=
  {p | tile_lo_x map_side_len i < p.1 ∧ p.1 < tile_hi_x map_side_len i ∧
       tile_lo_z map_side_len i < p.2 ∧ p.2 < tile_hi_z map_side_len i}

/-- Modelled from the spec (for comparison with the footprints computed from
the code): the square in which, per the spec, "x and z range over [-5, 5]". -/
def claimed_square : Set (ℚ × ℚ) :=
  {p | -5 ≤ p.1 ∧ p.1 ≤ 5 ∧ -5 ≤ p.2 ∧ p.2 ≤ 5}

lemma mem_footprint0 (p : ℚ × ℚ) : p ∈ tile_footprint the_map_side_len 0 ↔
    -(5/2) ≤ p.1 ∧ p.1 ≤ 5/2 ∧ -(5/2) ≤ p.2 ∧ p.2 ≤ 5/2 := by
  norm_num [tile_footprint, tile_lo_x, tile_hi_x, tile_lo_z, tile_hi_z, tile_vars,
    base_corners, tile_side_step, the_map_side_len, min_def, max_def, Set.mem_setOf_eq]

lemma mem_footprint1 (p : ℚ × ℚ) : p ∈ tile_footprint the_map_side_len 1 ↔
    5/2 ≤ p.1 ∧ p.1 ≤ 15/2 ∧ -(5/2) ≤ p.2 ∧ p.2 ≤ 5/2 := by
  norm_num [tile_footprint, tile_lo_x, tile_hi_x, tile_lo_z, tile_hi_z, tile_vars,
    base_corners, tile1_update, tile_side_step, the_map_side_len, min_def, max_def,
    Set.mem_setOf_eq]

lemma mem_footprint2 (p : ℚ × ℚ) : p ∈ tile_footprint the_map_side_len 2 ↔
    5/2 ≤ p.1 ∧ p.1 ≤ 15/2 ∧ -(15/2) ≤ p.2 ∧ p.2 ≤ -(5/2) := by
  norm_num [tile_footprint, tile_lo_x, tile_hi_x, tile_lo_z, tile_hi_z, tile_vars,
    base_corners, tile1_update, tile2_update, tile_side_step, the_map_side_len,
    min_def, max_def, Set.mem_setOf_eq]

lemma mem_footprint3 (p : ℚ × ℚ) : p ∈ tile_footprint the_map_side_len 3 ↔
    -(5/2) ≤ p.1 ∧ p.1 ≤ 5/2 ∧ -(15/2) ≤ p.2 ∧ p.2 ≤ -(5/2) := by
  norm_num [tile_footprint, tile_lo_x, tile_hi_x, tile_lo_z, tile_hi_z, tile_vars,
    base_corners, tile1_update, tile2_update, tile3_update, tile_side_step,
    the_map_side_len, min_def, max_def, Set.mem_setOf_eq]

lemma mem_interior0 (p : ℚ × ℚ) : p ∈ tile_interior the_map_side_len 0 ↔
    -(5/2) < p.1 ∧ p.1 < 5/2 ∧ -(5/2) < p.2 ∧ p.2 < 5/2 := by
  norm_num [tile_interior, tile_lo_x, tile_hi_x, tile_lo_z, tile_hi_z, tile_vars,
    base_corners, tile_side_step, the_map_side_len, min_def, max_def, Set.mem_setOf_eq]

lemma mem_interior1 (p : ℚ × ℚ) : p ∈ tile_interior the_map_side_len 1 ↔
    5/2 < p.1 ∧ p.1 < 15/2 ∧ -(5/2) < p.2 ∧ p.2 < 5/2 := by
  norm_num [tile_interior, tile_lo_x, tile_hi_x, tile_lo_z, tile_hi_z, tile_vars,
    base_corners, tile1_update, tile_side_step, the_map_side_len, min_def, max_def,
    Set.mem_setOf_eq]

lemma mem_interior2 (p : ℚ × ℚ) : p ∈ tile_interior the_map_side_len 2 ↔
    5/2 < p.1 ∧ p.1 < 15/2 ∧ -(15/2) < p.2 ∧ p.2 < -(5/2) := by
  norm_num [tile_interior, tile_lo_x, tile_hi_x, tile_lo_z, tile_hi_z, tile_vars,
    base_corners, tile1_update, tile2_update, tile_side_step, the_map_side_len,
    min_def, max_def, Set.mem_setOf_eq]

lemma mem_interior3 (p : ℚ × ℚ) : p ∈ tile_interior the_map_side_len 3 ↔
    -(5/2) < p.1 ∧ p.1 < 5/2 ∧ -(15/2) < p.2 ∧ p.2 < -(5/2) := by
  norm_num [tile_interior, tile_lo_x, tile_hi_x, tile_lo_z, tile_hi_z, tile_vars,
    base_corners, tile1_update, tile2_update, tile3_update, tile_side_step,
    the_map_side_len, min_def, max_def, Set.mem_setOf_eq]

/-- C1: for every tile, given its four corners (a, b, c, d), the triangulation
function emits exactly the ordered position sequence [a, b, c, c, d, a]
(triangle 1 = (a, b, c), triangle 2 = (c, d, a), shared vertices repeated),
with a parallel UV entry emitted for each of the six positions. -/
theorem C1_triangulation_emits_abccda (a b c d : Vec3) (m mx : ℚ) :
    (plane_positions_and_uvs a b c d m mx).1 = [a, b, c, c, d, a] ∧
    (plane_positions_and_uvs a b c d m mx).2 =
      (plane_positions_and_uvs a b c d m mx).1.map (fun p => get_uv m mx p.x p.z) := by
  simp [plane_positions_and_uvs]

/-- C2: for every vertex emitted by the builder, its texture coordinate is a
deterministic function of its world position: u = (z + |min_x|) / map_side_len
and v = (x + |min_x|) / map_side_len, with the u/v axes swapped relative to
the position's x/z axes. -/
theorem C2_uv_function_of_position (m mx : ℚ) :
    List.Forall₂
      (fun (p : Vec3) (t : UV2) => t.u = (p.z + |mx|) / m ∧ t.v = (p.x + |mx|) / m)
      (setup_plane_buffers m mx).1 (setup_plane_buffers m mx).2 := by
  simp [setup_plane_buffers, tile_buffers, plane_positions_and_uvs, get_uv,
    uv_calculate, List.forall₂_cons]

/-- C6: with map_side_len = 10, min_x = -5 and tile_side_step = 2.5, tile 0's
corner a equals the position (2.5, 2.5, -2.5) and its UV coordinate equals
(0.25, 0.75) exactly. -/
theorem C6_tile0_corner_a_value :
    the_map_side_len = 10 ∧ the_min_x = -5 ∧
    tile_side_step the_map_side_len = 5/2 ∧
    (tile_vars the_map_side_len 0).a = ⟨5/2, 5/2, -(5/2)⟩ ∧
    (tile_buffers the_map_side_len the_min_x 0).1.get? 0 =
      some ⟨5/2, 5/2, -(5/2)⟩ ∧
    (tile_buffers the_map_side_len the_min_x 0).2.get? 0 = some ⟨1/4, 3/4⟩ := by
  norm_num [the_map_side_len, the_min_x, tile_side_step, tile_vars, base_corners,
    tile_buffers, tile_args, plane_positions_and_uvs, get_uv, uv_calculate]

/-- C7: each of the four tiles contributes exactly 6 position entries and
6 UV entries, the four tiles' sequences are concatenated in tile order
0,1,2,3, and the assembled buffer holds exactly 24 position entries and
24 UV entries. -/
theorem C7_six_per_tile_24_total (m mx : ℚ) :
    (∀ i : Fin 4,
      (tile_buffers m mx i).1.length = 6 ∧ (tile_buffers m mx i).2.length = 6) ∧
    (setup_plane_buffers m mx).1 =
      (tile_buffers m mx 0).1 ++ (tile_buffers m mx 1).1 ++
        (tile_buffers m mx 2).1 ++ (tile_buffers m mx 3).1 ∧
    (setup_plane_buffers m mx).2 =
      (tile_buffers m mx 0).2 ++ (tile_buffers m mx 1).2 ++
        (tile_buffers m mx 2).2 ++ (tile_buffers m mx 3).2 ∧
    (setup_plane_buffers m mx).1.length = 24 ∧
    (setup_plane_buffers m mx).2.length = 24 := by
  refine ⟨?_, rfl, rfl, ?_, ?_⟩
  · intro i
    fin_cases i <;> simp [tile_buffers, plane_positions_and_uvs]
  · simp [setup_plane_buffers, tile_buffers, plane_positions_and_uvs]
  · simp [setup_plane_buffers, tile_buffers, plane_positions_and_uvs]

/-- C8: the mesh builder is deterministic — two runs with identical
configuration constants produce identical position and UV sequences. -/
theorem C8_builder_deterministic (m mx : ℚ) (out1 out2 : List Vec3 × List UV2)
    (h1 : setup_plane_buffers m mx = out1) (h2 : setup_plane_buffers m mx = out2) :
    out1 = out2 :=
  h1.symm.trans h2

/-- Witness for C8 at the program's fixed constants. -/
theorem C8_builder_deterministic_witness :
    setup_plane_buffers the_map_side_len the_min_x =
      setup_plane_buffers the_map_side_len the_min_x :=
  C8_builder_deterministic the_map_side_len the_min_x
    (setup_plane_buffers the_map_side_len the_min_x)
    (setup_plane_buffers the_map_side_len the_min_x) rfl rfl

/-- C3 counterexample: the point (7, -1) lies in tile 1's x/z footprint (hence
in the union of the four footprints), yet is outside the square in which the
claim says x and z range over [-5, 5]. -/
theorem C3_counterexample :
    ((7 : ℚ), (-1 : ℚ)) ∈ tile_footprint the_map_side_len 1 ∧
    (((7 : ℚ), (-1 : ℚ)) ∈ claimed_square ↔ False) := by
  constructor
  · rw [mem_footprint1]; norm_num
  · norm_num [claimed_square, Set.mem_setOf_eq]

/-- C3 (amended): the union of the four tiles' x/z footprints is exactly the
10×10 square with x ranging over [-2.5, 7.5] and z over [-7.5, 2.5] (not
[-5, 5] on both axes); each footprint is a 5×5 quadrant-sized region and the
footprints' interiors are pairwise disjoint (no gaps, no overlaps). -/
theorem C3_footprints_partition_10x10 :
    (tile_footprint the_map_side_len 0 ∪ tile_footprint the_map_side_len 1 ∪
       tile_footprint the_map_side_len 2 ∪ tile_footprint the_map_side_len 3) =
      {p : ℚ × ℚ | -(5/2) ≤ p.1 ∧ p.1 ≤ 15/2 ∧ -(15/2) ≤ p.2 ∧ p.2 ≤ 5/2} ∧
    (tile_hi_x the_map_side_len 0 - tile_lo_x the_map_side_len 0 = 5 ∧
      tile_hi_z the_map_side_len 0 - tile_lo_z the_map_side_len 0 = 5) ∧
    (tile_hi_x the_map_side_len 1 - tile_lo_x the_map_side_len 1 = 5 ∧
      tile_hi_z the_map_side_len 1 - tile_lo_z the_map_side_len 1 = 5) ∧
    (tile_hi_x the_map_side_len 2 - tile_lo_x the_map_side_len 2 = 5 ∧
      tile_hi_z the_map_side_len 2 - tile_lo_z the_map_side_len 2 = 5) ∧
    (tile_hi_x the_map_side_len 3 - tile_lo_x the_map_side_len 3 = 5 ∧
      tile_hi_z the_map_side_len 3 - tile_lo_z the_map_side_len 3 = 5) ∧
    tile_interior the_map_side_len 0 ∩ tile_interior the_map_side_len 1 = ∅ ∧
    tile_interior the_map_side_len 0 ∩ tile_interior the_map_side_len 2 = ∅ ∧
    tile_interior the_map_side_len 0 ∩ tile_interior the_map_side_len 3 = ∅ ∧
    tile_interior the_map_side_len 1 ∩ tile_interior the_map_side_len 2 = ∅ ∧
    tile_interior the_map_side_len 1 ∩ tile_interior the_map_side_len 3 = ∅ ∧
    tile_interior the_map_side_len 2 ∩ tile_interior the_map_side_len 3 = ∅ := by
  refine ⟨?_, ?_, ?_, ?_, ?_, ?_, ?_, ?_, ?_, ?_, ?_⟩
  · ext p
    simp only [Set.mem_union, mem_footprint0, mem_footprint1, mem_footprint2,
      mem_footprint3, Set.mem_setOf_eq]
    constructor
    · rintro (((⟨h1, h2, h3, h4⟩ | ⟨h1, h2, h3, h4⟩) | ⟨h1, h2, h3, h4⟩) |
        ⟨h1, h2, h3, h4⟩) <;>
        exact ⟨by linarith, by linarith, by linarith, by linarith⟩
    · rintro ⟨h1, h2, h3, h4⟩
      rcases le_or_lt p.1 (5/2) with hx | hx <;>
        rcases le_or_lt (-(5/2)) p.2 with hz | hz
      · exact Or.inl (Or.inl (Or.inl ⟨h1, hx, hz, h4⟩))
      · exact Or.inr ⟨h1, hx, h3, hz.le⟩
      · exact Or.inl (Or.inl (Or.inr ⟨hx.le, h2, hz, h4⟩))
      · exact Or.inl (Or.inr ⟨hx.le, h2, h3, hz.le⟩)
  · constructor <;>
      norm_num [tile_hi_x, tile_lo_x, tile_hi_z, tile_lo_z, tile_vars, base_corners,
        tile1_update, tile2_update, tile3_update, tile_side_step, the_map_side_len,
        min_def, max_def]
  · constructor <;>
      norm_num [tile_hi_x, tile_lo_x, tile_hi_z, tile_lo_z, tile_vars, base_corners,
        tile1_update, tile2_update, tile3_update, tile_side_step, the_map_side_len,
        min_def, max_def]
  · constructor <;>
      norm_num [tile_hi_x, tile_lo_x, tile_hi_z, tile_lo_z, tile_vars, base_corners,
        tile1_update, tile2_update, tile3_update, tile_side_step, the_map_side_len,
        min_def, max_def]
  · constructor <;>
      norm_num [tile_hi_x, tile_lo_x, tile_hi_z, tile_lo_z, tile_vars, base_corners,
        tile1_update, tile2_update, tile3_update, tile_side_step, the_map_side_len,
        min_def, max_def]
  · ext p
    simp only [Set.mem_inter_iff, mem_interior0, mem_interior1,
      Set.mem_empty_iff_false, iff_false]
    rintro ⟨⟨h1, h2, h3, h4⟩, ⟨h5, h6, h7, h8⟩⟩; linarith
  · ext p
    simp only [Set.mem_inter_iff, mem_interior0, mem_interior2,
      Set.mem_empty_iff_false, iff_false]
    rintro ⟨⟨h1, h2, h3, h4⟩, ⟨h5, h6, h7, h8⟩⟩; linarith
  · ext p
    simp only [Set.mem_inter_iff, mem_interior0, mem_interior3,
      Set.mem_empty_iff_false, iff_false]
    rintro ⟨⟨h1, h2, h3, h4⟩, ⟨h5, h6, h7, h8⟩⟩; linarith
  · ext p
    simp only [Set.mem_inter_iff, mem_interior1, mem_interior2,
      Set.mem_empty_iff_false, iff_false]
    rintro ⟨⟨h1, h2, h3, h4⟩, ⟨h5, h6, h7, h8⟩⟩; linarith
  · ext p
    simp only [Set.mem_inter_iff, mem_interior1, mem_interior3,
      Set.mem_empty_iff_false, iff_false]
    rintro ⟨⟨h1, h2, h3, h4⟩, ⟨h5, h6, h7, h8⟩⟩; linarith
  · ext p
    simp only [Set.mem_inter_iff, mem_interior2, mem_interior3,
      Set.mem_empty_iff_false, iff_false]
    rintro ⟨⟨h1, h2, h3, h4⟩, ⟨h5, h6, h7, h8⟩⟩; linarith

/-- C4 counterexample: in the base quad, corner d's y-coordinate is 0, not
+tile_side_step (= 5/2 at the fixed constants), so "A and D share a raised
y-coordinate" is false; moreover d's z-coordinate is +tile_side_step while
a's is -tile_side_step, so d is not offset toward -z. -/
theorem C4_counterexample :
    (base_corners (tile_side_step the_map_side_len)).d.y = 0 ∧
    (base_corners (tile_side_step the_map_side_len)).a.y = 5/2 ∧
    (((0 : ℚ) = 5/2) ↔ False) ∧
    (base_corners (tile_side_step the_map_side_len)).d.z = 5/2 ∧
    (base_corners (tile_side_step the_map_side_len)).a.z = -(5/2) := by
  norm_num [base_corners, tile_side_step, the_map_side_len]

/-- C4 (amended): in the base quad, corner A alone has the raised y-coordinate
+tile_side_step while B, C and D sit at y = 0; A is offset toward +x and -z, and D
toward +x and +z, relative to B and C; the four corners form a square of side
2 * tile_side_step in the x/z plane; and tile_side_step = map_side_len / 4. -/
theorem C4_base_quad_geometry (m : ℚ) :
    (base_corners (tile_side_step m)).a.y = tile_side_step m ∧
    (base_corners (tile_side_step m)).b.y = 0 ∧
    (base_corners (tile_side_step m)).c.y = 0 ∧
    (base_corners (tile_side_step m)).d.y = 0 ∧
    (base_corners (tile_side_step m)).a.x = tile_side_step m ∧
    (base_corners (tile_side_step m)).a.z = -tile_side_step m ∧
    (base_corners (tile_side_step m)).b.x = -tile_side_step m ∧
    (base_corners (tile_side_step m)).b.z = -tile_side_step m ∧
    (base_corners (tile_side_step m)).c.x = -tile_side_step m ∧
    (base_corners (tile_side_step m)).c.z = tile_side_step m ∧
    (base_corners (tile_side_step m)).d.x = tile_side_step m ∧
    (base_corners (tile_side_step m)).d.z = tile_side_step m ∧
    (base_corners (tile_side_step m)).d.x - (base_corners (tile_side_step m)).b.x =
      2 * tile_side_step m ∧
    (base_corners (tile_side_step m)).c.z - (base_corners (tile_side_step m)).b.z =
      2 * tile_side_step m ∧
    tile_side_step m = m / 4 := by
  simp only [base_corners, tile_side_step]
  try repeat' apply And.intro
  all_goals ring

/-- C5 counterexample: the tile-3 transform does not leave corner d's
y-coordinate unchanged — it raises it from 0 to tile_side_step (5/2 at the
fixed constants) — refuting the claim's "a/d unchanged" for tile 3. -/
theorem C5_counterexample :
    (tile_vars the_map_side_len 2).d.y = 0 ∧
    (tile_vars the_map_side_len 3).d.y = 5/2 ∧
    (((0 : ℚ) = 5/2) ↔ False) := by
  norm_num [tile_vars, base_corners, tile1_update, tile2_update, tile3_update,
    tile_side_step, the_map_side_len]

/-- C5 (amended): tile 1 translates +x by one tile width (2 * tile_side_step)
with a.y lowered and b.y raised by tile_side_step while c and d keep their y,
and its corners are passed to triangulation in B,C,D,A order; tile 2
translates the updated corners by -z one tile width with a/d y unchanged, b
lowered, c raised, passed in A,B,C,D order; tile 3 translates tile 2's
corners by -x one tile width, passed relabeled in B,C,D,A order, with a and b
y unchanged, c lowered, d raised. -/
theorem C5_tile_transform_recipe (m : ℚ) :
    (tile_vars m 1).a = ⟨(tile_vars m 0).a.x + 2 * tile_side_step m,
      (tile_vars m 0).a.y - tile_side_step m, (tile_vars m 0).a.z⟩ ∧
    (tile_vars m 1).b = ⟨(tile_vars m 0).b.x + 2 * tile_side_step m,
      (tile_vars m 0).b.y + tile_side_step m, (tile_vars m 0).b.z⟩ ∧
    (tile_vars m 1).c = ⟨(tile_vars m 0).c.x + 2 * tile_side_step m,
      (tile_vars m 0).c.y, (tile_vars m 0).c.z⟩ ∧
    (tile_vars m 1).d = ⟨(tile_vars m 0).d.x + 2 * tile_side_step m,
      (tile_vars m 0).d.y, (tile_vars m 0).d.z⟩ ∧
    tile_args m 1 = ⟨(tile_vars m 1).b, (tile_vars m 1).c,
      (tile_vars m 1).d, (tile_vars m 1).a⟩ ∧
    (tile_vars m 2).a = ⟨(tile_vars m 1).a.x, (tile_vars m 1).a.y,
      (tile_vars m 1).a.z - 2 * tile_side_step m⟩ ∧
    (tile_vars m 2).b = ⟨(tile_vars m 1).b.x, (tile_vars m 1).b.y - tile_side_step m,
      (tile_vars m 1).b.z - 2 * tile_side_step m⟩ ∧
    (tile_vars m 2).c = ⟨(tile_vars m 1).c.x, (tile_vars m 1).c.y + tile_side_step m,
      (tile_vars m 1).c.z - 2 * tile_side_step m⟩ ∧
    (tile_vars m 2).d = ⟨(tile_vars m 1).d.x, (tile_vars m 1).d.y,
      (tile_vars m 1).d.z - 2 * tile_side_step m⟩ ∧
    tile_args m 2 = tile_vars m 2 ∧
    (tile_vars m 3).a = ⟨(tile_vars m 2).a.x - 2 * tile_side_step m,
      (tile_vars m 2).a.y, (tile_vars m 2).a.z⟩ ∧
    (tile_vars m 3).b = ⟨(tile_vars m 2).b.x - 2 * tile_side_step m,
      (tile_vars m 2).b.y, (tile_vars m 2).b.z⟩ ∧
    (tile_vars m 3).c = ⟨(tile_vars m 2).c.x - 2 * tile_side_step m,
      (tile_vars m 2).c.y - tile_side_step m, (tile_vars m 2).c.z⟩ ∧
    (tile_vars m 3).d = ⟨(tile_vars m 2).d.x - 2 * tile_side_step m,
      (tile_vars m 2).d.y + tile_side_step m, (tile_vars m 2).d.z⟩ ∧
    tile_args m 3 = ⟨(tile_vars m 3).b, (tile_vars m 3).c,
      (tile_vars m 3).d, (tile_vars m 3).a⟩ := by
  simp only [tile_vars, tile_args, base_corners, tile1_update, tile2_update,
    tile3_update, Vec3.mk.injEq, Corners.mk.injEq]
  try repeat' apply And.intro
  all_goals ring

/-- C9: adjacent tiles share full 3D edges: the footprints of tiles 0/1, 1/2,
2/3 and 3/0 abut, and for each such pair two corner positions of one tile are
exactly equal — in all three coordinates, y included — to two corner
positions of the other, so the folded surface is seam-continuous. -/
theorem C9_adjacent_tiles_share_edges :
    tile_hi_x the_map_side_len 0 = tile_lo_x the_map_side_len 1 ∧
    tile_lo_z the_map_side_len 1 = tile_hi_z the_map_side_len 2 ∧
    tile_lo_x the_map_side_len 2 = tile_hi_x the_map_side_len 3 ∧
    tile_hi_z the_map_side_len 3 = tile_lo_z the_map_side_len 0 ∧
    (tile_vars the_map_side_len 0).a = (tile_vars the_map_side_len 1).b ∧
    (tile_vars the_map_side_len 0).d = (tile_vars the_map_side_len 1).c ∧
    (tile_vars the_map_side_len 1).a = (tile_vars the_map_side_len 2).d ∧
    (tile_vars the_map_side_len 1).b = (tile_vars the_map_side_len 2).c ∧
    (tile_vars the_map_side_len 2).b = (tile_vars the_map_side_len 3).a ∧
    (tile_vars the_map_side_len 2).c = (tile_vars the_map_side_len 3).d ∧
    (tile_vars the_map_side_len 3).c = (tile_vars the_map_side_len 0).b ∧
    (tile_vars the_map_side_len 3).d = (tile_vars the_map_side_len 0).a := by
  norm_num [tile_hi_x, tile_lo_x, tile_hi_z, tile_lo_z, tile_vars, base_corners,
    tile1_update, tile2_update, tile3_update, tile_side_step, the_map_side_len,
    min_def, max_def]

/-- C10: every vertex position in the assembled buffer has y-coordinate equal
to either 0 or tile_side_step (2.5 at the fixed constants); each tile's four
corners, after its transforms, have exactly one corner at y = tile_side_step
(a, b, c, d for tiles 0, 1, 2, 3 respectively) and the other three at y = 0. -/
theorem C10_vertex_y_values (m mx : ℚ) :
    List.Forall (fun p : Vec3 => p.y = 0 ∨ p.y = tile_side_step m)
      (setup_plane_buffers m mx).1 ∧
    (tile_vars m 0).a.y = tile_side_step m ∧ (tile_vars m 0).b.y = 0 ∧
    (tile_vars m 0).c.y = 0 ∧ (tile_vars m 0).d.y = 0 ∧
    (tile_vars m 1).b.y = tile_side_step m ∧ (tile_vars m 1).a.y = 0 ∧
    (tile_vars m 1).c.y = 0 ∧ (tile_vars m 1).d.y = 0 ∧
    (tile_vars m 2).c.y = tile_side_step m ∧ (tile_vars m 2).a.y = 0 ∧
    (tile_vars m 2).b.y = 0 ∧ (tile_vars m 2).d.y = 0 ∧
    (tile_vars m 3).d.y = tile_side_step m ∧ (tile_vars m 3).a.y = 0 ∧
    (tile_vars m 3).b.y = 0 ∧ (tile_vars m 3).c.y = 0 ∧
    tile_side_step the_map_side_len = 5/2 := by
  norm_num [setup_plane_buffers, tile_buffers, tile_args, tile_vars,
    plane_positions_and_uvs, base_corners, tile1_update, tile2_update,
    tile3_update, tile_side_step, the_map_side_len, List.forall_cons,
    List.Forall]
